import Mathlib

/-
Verification of the tg-secret-santa-bot sources: a shallow embedding of the
Secret Santa drafting algorithm (utilities.draft), the SecretSanta session
record (santa.py) and the relevant handlers (main.py, keyboards.py), with
theorems checking the specification claims.

Modelling conventions:
- Python randomness (random.choice) is driven by an explicit oracle stream
  (Nat → Nat): the k-th call to random.choice(lst) picks lst[(oracle k) % len(lst)].
- Unbounded Python while-loops are modelled with explicit fuel; a result of
  none means the loop did not finish within the given fuel. utilities.draft
  has no failure result of its own (it never raises), so none is the only
  way the model can fail to produce a pair list.
- Participant identifiers are Telegram user ids, modelled as Nat
  (main.py passes list(santa.participants.keys()) to utilities.draft).
-/

namespace SantaBot

/-- random.choice(lst) driven by the oracle value r: picks lst[r % len(lst)].
Returns none only on the empty list, where the Python call would raise. -/
def choice (l : List ℕ) (r : ℕ) : Option ℕ :=
  l[r % l.length]?

/-- The inner while-loop of utilities.draft (utilities.py lines 120-123):
while item == picked_item: invalid_picks_count += 1; picked_item = random.choice(yet_to_match).
The arguments are the current picked value, the oracle position k and the
invalid-picks counter; fuel bounds the number of re-picks (the source loop is
unbounded). On exit it returns the accepted pick together with the new oracle
position and counter. -/
def pickLoop (oracle : ℕ → ℕ) (item : ℕ) (yet : List ℕ) :
    ℕ → ℕ → ℕ → ℕ → Option (ℕ × ℕ × ℕ)
  | 0, picked, k, invalid =>
      if picked = item then none else some (picked, k, invalid)
  | fuel + 1, picked, k, invalid =>
      if picked = item then
        match choice yet (oracle k) with
        | none => none
        | some q => pickLoop oracle item yet fuel q (k + 1) (invalid + 1)
      else some (picked, k, invalid)

/-- Outcome of one round of the raffle (one run of the for-loop in
utilities.draft): either retry_raffle was set and the round must be repeated,
or the pair list is complete. The ℕ argument carries the number of oracle
values consumed so far. -/
inductive RoundOutcome where
  | retry (k : ℕ)
  | done (pairs : List (ℕ × ℕ)) (k : ℕ)
deriving DecidableEq

/-- The for-loop of utilities.draft (utilities.py lines 103-130), one raffle
round: for each item (in sorted order) pick a random element of yet_to_match;
if the pick equals the item and it is the only one left, or the accumulated
invalid-picks counter exceeds the threshold 300, set retry_raffle and break;
otherwise re-pick while the pick equals the item, then remove the pick from
yet_to_match and append the pair (item, pick). -/
def roundLoop (oracle : ℕ → ℕ) (fuel : ℕ) :
    List ℕ → List ℕ → List (ℕ × ℕ) → ℕ → ℕ → Option RoundOutcome
  | [], _yet, pairs, k, _invalid => some (.done pairs k)
  | item :: rest, yet, pairs, k, invalid =>
      match choice yet (oracle k) with
      | none => none
      | some picked =>
          if picked = item ∧ yet.length = 1 then some (.retry (k + 1))
          else if invalid > 300 then some (.retry (k + 1))
          else
            match pickLoop oracle item yet fuel picked (k + 1) invalid with
            | none => none
            | some (p, k2, invalid2) =>
                roundLoop oracle fuel rest (yet.erase p) (pairs ++ [(item, p)]) k2 invalid2

/-- The outer while retry_raffle loop of utilities.draft (utilities.py lines
95-136): repeat rounds until one succeeds. The source has no retry cap and no
failure result: a failed round simply restarts the loop. -/
def draftLoop (oracle : ℕ → ℕ) (items : List ℕ) : ℕ → ℕ → Option (List (ℕ × ℕ))
  | 0, _k => none
  | fuel + 1, k =>
      match roundLoop oracle fuel items items [] k 0 with
      | none => none
      | some (.done pairs _) => some pairs
      | some (.retry k2) => draftLoop oracle items fuel k2

/-- items_list.sort() from utilities.draft line 92: ascending order. -/
def sortIds (l : List ℕ) : List ℕ :=
  l.insertionSort (· ≤ ·)

/-- utilities.draft (utilities.py lines 88-136): sort the list, then run
raffle rounds until one succeeds. -/
def draft (oracle : ℕ → ℕ) (fuel : ℕ) (items : List ℕ) : Option (List (ℕ × ℕ)) :=
  draftLoop oracle (sortIds items) fuel 0

/-- The adversarial random stream for the unbounded inner while-loop: it
always picks index 0. -/
def stuckOracle : ℕ → ℕ := fun _ => 0

/-- A Telegram user as seen by the handlers: santa.py only reads id and
first_name. -/
structure TgUser where
  id : ℕ
  first_name : String
deriving DecidableEq

/-- One value of the SecretSanta participants mapping (santa.py,
SecretSanta.add line 137): keys name and match_message_id. join_message_id
models the join-notification binding used by main.py through
set_user_join_message_id and get_user_join_message_id, which santa.py does
not define. Modelled from the spec: the participants mapping carries
display_name, join_notification_ref and match_notification_ref per
participant; an absent dict key is modelled as none. -/
structure Participant where
  name : String
  match_message_id : Option ℕ
  join_message_id : Option ℕ
deriving DecidableEq

/-- The SecretSanta record (santa.py lines 22-62): the nine keys of
_santa_dict. participants is an insertion-ordered mapping, modelled as an
association list; datetimes are modelled as ℕ timestamps. -/
structure SecretSanta where
  origin_message_id : ℕ
  santa_message_id : Option ℕ
  participants : List (ℕ × Participant)
  created_on : ℕ
  updated_on : ℕ
  user_id : ℕ
  user_name : String
  chat_id : ℤ
  chat_title : String
deriving DecidableEq

/-- Python dict assignment d[k] = v on an insertion-ordered mapping:
overwrite in place when the key exists (keeping its position), append
otherwise. -/
def setEntry : List (ℕ × Participant) → ℕ → Participant → List (ℕ × Participant)
  | [], k, v => [(k, v)]
  | (k2, v2) :: rest, k, v =>
      if k2 = k then (k, v) :: rest else (k2, v2) :: setEntry rest k v

/-- SecretSanta.__init__ (santa.py lines 22-45). now stands for the ambient
utilities.now() read by the constructor; the optional arguments default
exactly as in the source via Python truthiness (a falsy participants dict is
replaced by a fresh empty one, a missing datetime by now). -/
def SecretSanta.init (now : ℕ) (origin_message_id : ℕ) (user_id : ℕ)
    (user_name : String) (chat_id : ℤ) (chat_title : String)
    (santa_message_id : Option ℕ) (participants : List (ℕ × Participant))
    (created_on updated_on : Option ℕ) : SecretSanta where
  origin_message_id := origin_message_id
  santa_message_id := santa_message_id
  participants := if participants.isEmpty then [] else participants
  created_on := created_on.getD now
  updated_on := updated_on.getD now
  user_id := user_id
  user_name := user_name
  chat_id := chat_id
  chat_title := chat_title

/-- SecretSanta.from_dict (santa.py lines 47-59): rebuild a SecretSanta from
its dict form. Since the class stores _santa_dict directly and dict()
returns it, the dict form is the record itself. -/
def SecretSanta.from_dict (now : ℕ) (d : SecretSanta) : SecretSanta :=
  SecretSanta.init now d.origin_message_id d.user_id d.user_name d.chat_id
    d.chat_title d.santa_message_id d.participants (some d.created_on)
    (some d.updated_on)

/-- SecretSanta.add (santa.py lines 134-142): record the already_a_participant
flag, then overwrite participants[user.id] with a fresh entry. The
update_time decorator above it is commented out in the source, so updated_on
is not touched. -/
def SecretSanta.add (s : SecretSanta) (user : TgUser)
    (match_message_id : Option ℕ) : Bool × SecretSanta :=
  let entry : Participant := ⟨user.first_name, match_message_id, none⟩
  ((s.participants.map Prod.fst).contains user.id,
    { s with participants := setEntry s.participants user.id entry })

/-- SecretSanta.remove (santa.py lines 153-156): participants.pop(user_id,
None); the returned Bool is the truthiness of the popped value (a
participant entry dict is never empty, so it is true exactly when the user
was present). The update_time decorator above it is commented out in the
source, so updated_on is not touched. -/
def SecretSanta.remove (s : SecretSanta) (user_id : ℕ) : Bool × SecretSanta :=
  ((s.participants.map Prod.fst).contains user_id,
    { s with participants := s.participants.filter (fun kv => kv.1 != user_id) })

/-- SecretSanta.update_user_name (santa.py lines 145-150), User branch: set
the stored name for user.id to user.first_name. The source raises KeyError
when the user is not a participant; the model leaves the record unchanged in
that case. The update_time decorator above it is commented out in the
source, so updated_on is not touched. -/
def SecretSanta.update_user_name (s : SecretSanta) (user : TgUser) : SecretSanta :=
  { s with participants :=
      s.participants.map (fun kv =>
        if kv.1 = user.id then (kv.1, { kv.2 with name := user.first_name })
        else kv) }

/-- SecretSanta.updated (santa.py lines 158-159): set updated_on to the
current utilities.now() value, passed here explicitly. -/
def SecretSanta.updated (s : SecretSanta) (now : ℕ) : SecretSanta :=
  { s with updated_on := now }

/-- SecretSanta.is_participant (santa.py lines 161-163). -/
def SecretSanta.is_participant (s : SecretSanta) (user_id : ℕ) : Bool :=
  (s.participants.map Prod.fst).contains user_id

/-- Modelled from the spec: set_user_join_message_id, which main.py calls on
the session (on_join_deeplink line 460) but src santa.py does not define.
Per the spec the participants mapping stores a join_notification_ref; the
call records the id of the private join confirmation message. -/
def SecretSanta.set_user_join_message_id (s : SecretSanta) (user : TgUser)
    (message_id : ℕ) : SecretSanta :=
  { s with participants :=
      s.participants.map (fun kv =>
        if kv.1 = user.id then
          (kv.1, { kv.2 with join_message_id := some message_id })
        else kv) }

/-- The per-chat dispatcher state read by the handlers: the
ACTIVE_SECRET_SANTA_KEY entry and the MUTED_KEY flag of context.chat_data. -/
structure ChatData where
  active : Option SecretSanta
  muted : Bool
deriving DecidableEq

/-- The reply sent by on_join_deeplink (main.py lines 409-462): joined
carries whether the creator text variant was used. The handler has no reply
that reports an already-joined state. -/
inductive JoinOutcome where
  | mutedReply
  | removedReply
  | noSantaReply
  | maxParticipantsReply
  | joined (creator : Bool)
deriving DecidableEq

/-- on_join_deeplink (main.py lines 409-462) for the chat addressed by the
deeplink. chatData is that chat's dispatcher chat_data entry (none when the
dispatcher holds none, in which case find_key and find_santa both come back
empty), recentlyLeft the RECENTLY_LEFT_KEY ids of bot_data, maxParticipants
the config.santa.max_participants value (a missing or zero value is falsy
and disables the check, as in the source), sentMessageId the id of the
reply message the handler sends on a successful join, which
set_user_join_message_id then records. Returns the new chat_data entry and
the reply. The add return flag is discarded, exactly as at line 444. -/
def on_join_deeplink (maxParticipants : Option ℕ) (chatData : Option ChatData)
    (recentlyLeft : List ℤ) (santaChatId : ℤ) (user : TgUser)
    (sentMessageId : ℕ) : Option ChatData × JoinOutcome :=
  match chatData with
  | none =>
      if recentlyLeft.contains santaChatId then (none, .removedReply)
      else (none, .noSantaReply)
  | some cd =>
      if cd.muted then (some cd, .mutedReply)
      else
        match cd.active with
        | none =>
            if recentlyLeft.contains santaChatId then (some cd, .removedReply)
            else (some cd, .noSantaReply)
        | some santa =>
            let maxP := maxParticipants.getD 0
            if maxP ≠ 0 ∧ santa.participants.length ≥ maxP then
              (some cd, .maxParticipantsReply)
            else
              let santa1 := (santa.add user none).2
              let santa2 := santa1.set_user_join_message_id user sentMessageId
              (some { cd with active := some santa2 },
                .joined (santa.user_id == user.id))

/-- The session and chat state used by the duplicate-join scenario: user 7
already joined (with join message 10) a session created by user 1. -/
def santaDup : SecretSanta :=
  ⟨10, some 20, [(7, ⟨"u", none, some 10⟩)], 5, 5, 1, "c", -100, "g"⟩

def cdDup : ChatData := ⟨some santaDup, false⟩

/-- Outcome of the /cancel command as visible to the actor. -/
inductive CancelOutcome where
  | noActiveSanta
  | silentlyIgnored
  | canceled
deriving DecidableEq

/-- on_cancel_command (main.py lines 647-681). The authorization check
models line 658 verbatim:
if not santa.creator_id != user_id and user_id not in get_admin_ids(...):
return. Returns the chat's remaining active session with the visible
outcome; the guard hit produces no reply at all (only a log line). -/
def on_cancel_command (santa : Option SecretSanta) (actorId : ℕ)
    (adminIds : List ℕ) : Option SecretSanta × CancelOutcome :=
  match santa with
  | none => (none, .noActiveSanta)
  | some s =>
      if ¬ (s.user_id ≠ actorId) ∧ actorId ∉ adminIds then
        (some s, .silentlyIgnored)
      else (none, .canceled)

/-- Outcome of the cancel button as visible to the actor. -/
inductive CancelButtonOutcome where
  | onlyCreatorAlert
  | canceledByCreator
deriving DecidableEq

/-- on_cancel_button (main.py lines 581-598): only the session creator may
use the cancel button; anyone else gets an alert and nothing changes. -/
def on_cancel_button (santa : SecretSanta) (actorId : ℕ) :
    Option SecretSanta × CancelButtonOutcome :=
  if santa.user_id ≠ actorId then (some santa, .onlyCreatorAlert)
  else (none, .canceledByCreator)

/-- A session created by user 1, used by the cancel scenarios. -/
def santaC : SecretSanta := ⟨10, some 20, [], 5, 5, 1, "c", -100, "g"⟩

/-- An inline keyboard button: its label and its action. url and callback
mirror the two InlineKeyboardButton kinds used by keyboards.py. -/
inductive ButtonAction where
  | url (u : String)
  | callback (data : String)
deriving DecidableEq

structure Button where
  label : String
  action : ButtonAction
deriving DecidableEq

/-- keyboards.secret_santa (keyboards.py lines 7-23): row 0 holds the join
deeplink (plus leave once there is at least one participant), row 1 holds
cancel, and the start-match button is appended to row 1 exactly when the
participant count has reached config.santa.min_participants. No parity
check exists. -/
def secret_santa (minParticipants : ℕ) (chatId : ℤ) (botUsername : String)
    (participantsCount : ℕ) : List (List Button) :=
  let deeplinkUrl := "https://t.me/" ++ botUsername ++ "?start=" ++ toString chatId
  let row0 := [Button.mk "join" (ButtonAction.url deeplinkUrl)]
  let row1 := [Button.mk "cancel" (ButtonAction.callback "cancel")]
  let row0b := if participantsCount ≠ 0 then
    row0 ++ [Button.mk "leave" (ButtonAction.callback "leave")] else row0
  let row1b := if participantsCount ≥ minParticipants then
    row1 ++ [Button.mk "start match" (ButtonAction.callback "match")] else row1
  [row0b, row1b]

/-- Whether a keyboard offers the start-match button (callback data match,
handled by on_match_button). -/
def hasStartButton (kb : List (List Button)) : Bool :=
  kb.any (fun row => row.any (fun b => b.action == ButtonAction.callback "match"))

/-- The reply produced by the start-match button handler. -/
inductive MatchOutcome where
  | onlyCreatorAlert
  | blockedUsersError (userIds : List ℕ)
  | draftingError
  | matched (pairs : List (ℕ × ℕ))
deriving DecidableEq

/-- Observable result of on_match_button: the chat's remaining active
session, whether utilities.draft was invoked, and the reply. -/
structure MatchResult where
  active : Option SecretSanta
  matcherInvoked : Bool
  outcome : MatchOutcome
deriving DecidableEq

/-- on_match_button (main.py lines 500-578). The handler checks only that
the actor is the session creator and that no participant has blocked the bot
(the blocked argument gives that per-user flag); it never inspects the
participant count. It then calls utilities.draft on the participant ids;
since the src draft raises nothing, the 12-attempt retry loop of lines
536-544 runs draft exactly once (the exception classes it catches,
utilities.TooManyInvalidPicks and utilities.StuckOnLastItem, do not exist in
utilities.py). An empty match list is reported as a drafting error (if not
matches); otherwise the matches are delivered, the session is popped from
chat_data and an archive copy is stored in bot_data (archive not modelled).
A result of none models draft not returning within the fuel. -/
def on_match_button (oracle : ℕ → ℕ) (fuel : ℕ) (blocked : ℕ → Bool)
    (santa : SecretSanta) (actorId : ℕ) : Option MatchResult :=
  if santa.user_id ≠ actorId then
    some ⟨some santa, false, .onlyCreatorAlert⟩
  else
    let blockedBy := (santa.participants.map Prod.fst).filter blocked
    if blockedBy ≠ [] then
      some ⟨some santa, false, .blockedUsersError blockedBy⟩
    else
      match draft oracle fuel (santa.participants.map Prod.fst) with
      | none => none
      | some ms =>
          if ms.isEmpty then some ⟨some santa, true, .draftingError⟩
          else some ⟨none, true, .matched ms⟩

/-- A session created by user 1 with an odd number of participants (three),
used by the start-guard scenarios. -/
def santaOdd : SecretSanta :=
  ⟨10, some 20, [(1, ⟨"a", none, none⟩), (2, ⟨"b", none, none⟩),
    (3, ⟨"c", none, none⟩)], 5, 5, 1, "c", -100, "g"⟩

/-- The per-chat body of close_old_secret_santas (main.py lines 962-979):
skip chats with no active session; skip sessions whose age in seconds is at
most config.santa.timeout days (Time.DAY_1 = 86400 seconds); otherwise
attempt the expiry-notice edit via secret_santa_expired unless the chat is
marked muted, and pop the session. The Bool records whether the notice edit
was attempted. -/
def sweepChat (timeoutDays : ℕ) (now : ℕ) (cd : ChatData) : ChatData × Bool :=
  match cd.active with
  | none => (cd, false)
  | some santa =>
      if (now : ℤ) - (santa.created_on : ℤ) ≤ (timeoutDays : ℤ) * 86400 then
        (cd, false)
      else ({ cd with active := none }, !cd.muted)

/-- close_old_secret_santas (main.py lines 958-981): one Sweeper pass over
the dispatcher chat_data. Each chat is handled independently; now is the
tick time (the source re-reads the clock per chat, a distinction the claims
do not involve). -/
def close_old_secret_santas (timeoutDays : ℕ) (now : ℕ)
    (chats : List ChatData) : List (ChatData × Bool) :=
  chats.map (sweepChat timeoutDays now)

/-- A session created at time 0, used by the sweeper scenarios. -/
def santaEpoch : SecretSanta := ⟨10, some 20, [], 0, 0, 1, "c", -100, "g"⟩

lemma choice_mem {l : List ℕ} {r x : ℕ} (h : choice l r = some x) : x ∈ l :=
  List.getElem?_mem h

lemma pickLoop_sound (oracle : ℕ → ℕ) (item : ℕ) (yet : List ℕ) :
    ∀ (fuel picked k invalid p k2 inv2 : ℕ),
      picked ∈ yet →
      pickLoop oracle item yet fuel picked k invalid = some (p, k2, inv2) →
      p ∈ yet ∧ p ≠ item := by
  intro fuel
  induction fuel with
  | zero =>
      intro picked k invalid p k2 inv2 hmem h
      by_cases hpi : picked = item
      · simp [pickLoop, hpi] at h
      · simp only [pickLoop, if_neg hpi, Option.some.injEq, Prod.mk.injEq] at h
        obtain ⟨hp, -, -⟩ := h
        exact ⟨hp ▸ hmem, hp ▸ hpi⟩
  | succ fuel ih =>
      intro picked k invalid p k2 inv2 hmem h
      by_cases hpi : picked = item
      · simp only [pickLoop, if_pos hpi] at h
        cases hc : choice yet (oracle k) with
        | none => rw [hc] at h; cases h
        | some q =>
            rw [hc] at h
            exact ih q (k + 1) (invalid + 1) p k2 inv2 (choice_mem hc) h
      · simp only [pickLoop, if_neg hpi, Option.some.injEq, Prod.mk.injEq] at h
        obtain ⟨hp, -, -⟩ := h
        exact ⟨hp ▸ hmem, hp ▸ hpi⟩

lemma roundLoop_done (oracle : ℕ → ℕ) (fuel : ℕ) :
    ∀ (rest : List ℕ) (yet : List ℕ) (pairs ps : List (ℕ × ℕ)) (k invalid k2 : ℕ),
      roundLoop oracle fuel rest yet pairs k invalid = some (.done ps k2) →
      ps.map Prod.fst = pairs.map Prod.fst ++ rest ∧
      (∃ leftover : List ℕ,
        (ps.map Prod.snd ++ leftover).Perm (pairs.map Prod.snd ++ yet)) ∧
      (∀ p ∈ ps, p ∈ pairs ∨ p.1 ≠ p.2) := by
  intro rest
  induction rest with
  | nil =>
      intro yet pairs ps k invalid k2 h
      simp only [roundLoop, Option.some.injEq, RoundOutcome.done.injEq] at h
      obtain ⟨hps, -⟩ := h
      subst hps
      exact ⟨by simp, ⟨yet, by simp⟩, fun p hp => Or.inl hp⟩
  | cons item rest ih =>
      intro yet pairs ps k invalid k2 h
      rw [roundLoop] at h
      cases hc : choice yet (oracle k) with
      | none => rw [hc] at h; cases h
      | some picked =>
          rw [hc] at h
          dsimp only at h
          by_cases h1 : picked = item ∧ yet.length = 1
          · rw [if_pos h1] at h; simp at h
          · rw [if_neg h1] at h
            by_cases h2 : invalid > 300
            · rw [if_pos h2] at h; simp at h
            · rw [if_neg h2] at h
              cases hp : pickLoop oracle item yet fuel picked (k + 1) invalid with
              | none => rw [hp] at h; cases h
              | some trip =>
                  obtain ⟨p, k3, inv3⟩ := trip
                  rw [hp] at h
                  obtain ⟨hpmem, hpne⟩ :=
                    pickLoop_sound oracle item yet fuel picked (k + 1) invalid p k3 inv3
                      (choice_mem hc) hp
                  obtain ⟨hfst, ⟨leftover, hperm⟩, hself⟩ :=
                    ih (yet.erase p) (pairs ++ [(item, p)]) ps k3 inv3 k2 h
                  refine ⟨by rw [hfst]; simp, ⟨leftover, ?_⟩, ?_⟩
                  · refine hperm.trans ?_
                    have heq : ((pairs ++ [(item, p)]).map Prod.snd) ++ yet.erase p
                        = pairs.map Prod.snd ++ (p :: yet.erase p) := by simp
                    rw [heq]
                    exact List.Perm.append_left _ (List.perm_cons_erase hpmem).symm
                  · intro q hq
                    rcases hself q hq with hq1 | hq2
                    · rcases List.mem_append.1 hq1 with hqa | hqb
                      · exact Or.inl hqa
                      · right
                        have hqb2 : q = (item, p) := by simpa using hqb
                        rw [hqb2]
                        exact fun e => hpne e.symm
                    · exact Or.inr hq2

lemma draftLoop_some (oracle : ℕ → ℕ) (items : List ℕ) :
    ∀ (fuel k : ℕ) (ps : List (ℕ × ℕ)),
      draftLoop oracle items fuel k = some ps →
      ∃ fuel2 k3 k4 : ℕ,
        roundLoop oracle fuel2 items items [] k3 0 = some (.done ps k4) := by
  intro fuel
  induction fuel with
  | zero => intro k ps h; simp [draftLoop] at h
  | succ fuel ih =>
      intro k ps h
      rw [draftLoop] at h
      cases hr : roundLoop oracle fuel items items [] k 0 with
      | none => rw [hr] at h; cases h
      | some out =>
          rw [hr] at h
          cases out with
          | done pairs k2 =>
              simp only [Option.some.injEq] at h
              exact ⟨fuel, k, k2, h ▸ hr⟩
          | retry k2 => exact ih k2 ps h

lemma draft_some_spec {oracle : ℕ → ℕ} {fuel : ℕ} {items : List ℕ}
    {ps : List (ℕ × ℕ)} (h : draft oracle fuel items = some ps) :
    ps.map Prod.fst = sortIds items ∧
    (ps.map Prod.snd).Perm (sortIds items) ∧
    (∀ p ∈ ps, p.1 ≠ p.2) ∧
    ps.length = items.length := by
  obtain ⟨f2, k3, k4, hr⟩ := draftLoop_some oracle (sortIds items) fuel 0 ps h
  obtain ⟨hfst, ⟨leftover, hperm⟩, hself⟩ :=
    roundLoop_done oracle f2 (sortIds items) (sortIds items) [] ps k3 0 k4 hr
  simp only [List.map_nil, List.nil_append] at hfst hperm
  have hlen : ps.length = (sortIds items).length := by
    have := congrArg List.length hfst
    simpa using this
  have hlen2 := hperm.length_eq
  simp only [List.length_append, List.length_map] at hlen2
  have hleftover : leftover = [] := by
    have : leftover.length = 0 := by omega
    exact List.eq_nil_of_length_eq_zero this
  subst hleftover
  simp only [List.append_nil] at hperm
  refine ⟨hfst, hperm, fun p hp => ?_, ?_⟩
  · rcases hself p hp with h1 | h2
    · cases h1
    · exact h2
  · rw [hlen, sortIds, List.length_insertionSort]

lemma sortIds_perm (l : List ℕ) : (sortIds l).Perm l :=
  List.perm_insertionSort _ l

lemma sortIds_sorted (l : List ℕ) : (sortIds l).Sorted (· ≤ ·) :=
  List.sorted_insertionSort _ l

/-- On a one-element list the raffle round always fails: the only pick equals
the item being matched and it is the last one left, so retry_raffle is set. -/
lemma roundLoop_single (oracle : ℕ → ℕ) (fuel k x : ℕ) :
    roundLoop oracle fuel [x] [x] [] k 0 = some (.retry (k + 1)) := by
  simp [roundLoop, choice, Nat.mod_one]

lemma draftLoop_single (oracle : ℕ → ℕ) (x : ℕ) :
    ∀ fuel k, draftLoop oracle [x] fuel k = none := by
  intro fuel
  induction fuel with
  | zero => intro k; rfl
  | succ fuel ih =>
      intro k
      rw [draftLoop, roundLoop_single]
      exact ih (k + 1)

lemma pickLoop_stuck : ∀ fuel k invalid,
    pickLoop stuckOracle 1 [1, 2] fuel 1 k invalid = none := by
  intro fuel
  induction fuel with
  | zero => intro k invalid; rfl
  | succ fuel ih =>
      intro k invalid
      have hchoice : choice [1, 2] (stuckOracle k) = some 1 := rfl
      rw [pickLoop, if_pos rfl, hchoice]
      exact ih (k + 1) (invalid + 1)

lemma roundLoop_stuck (fuel k : ℕ) :
    roundLoop stuckOracle fuel [1, 2] [1, 2] [] k 0 = none := by
  have hchoice : choice [1, 2] (stuckOracle k) = some 1 := rfl
  rw [roundLoop, hchoice]
  dsimp only
  rw [if_neg (by simp), if_neg (by omega), pickLoop_stuck]

lemma draftLoop_stuck : ∀ fuel k, draftLoop stuckOracle [1, 2] fuel k = none := by
  intro fuel
  cases fuel with
  | zero => intro k; rfl
  | succ fuel =>
      intro k
      rw [draftLoop, roundLoop_stuck]

lemma setEntry_setEntry (k : ℕ) (v : Participant) :
    ∀ l : List (ℕ × Participant), setEntry (setEntry l k v) k v = setEntry l k v := by
  intro l
  induction l with
  | nil => simp [setEntry]
  | cons kv rest ih =>
      obtain ⟨k2, v2⟩ := kv
      by_cases h : k2 = k
      · simp [setEntry, h]
      · simp [setEntry, h, ih]

lemma contains_setEntry (k : ℕ) (v : Participant) :
    ∀ l : List (ℕ × Participant),
      (((setEntry l k v).map Prod.fst).contains k) = true := by
  intro l
  induction l with
  | nil => simp [setEntry]
  | cons kv rest ih =>
      obtain ⟨k2, v2⟩ := kv
      by_cases h : k2 = k
      · simp [setEntry, h]
      · rw [setEntry, if_neg h]
        simp only [List.map_cons, List.contains_cons, ih, Bool.or_true]

/-- C1: for every list of N ≥ 2 unique participant identifiers, whenever
utilities.draft returns (for whatever random stream and fuel), it returns
exactly N pairs in which every identifier appears exactly once as gifter
(first component) and exactly once as receiver (second component), and no
pair has gifter = receiver. -/
theorem draft_returns_perfect_matching (oracle : ℕ → ℕ) (fuel : ℕ)
    (items : List ℕ) (pairs : List (ℕ × ℕ))
    (hnd : items.Nodup) (hlen : 2 ≤ items.length)
    (h : draft oracle fuel items = some pairs) :
    pairs.length = items.length ∧
    (pairs.map Prod.fst).Perm items ∧
    (pairs.map Prod.snd).Perm items ∧
    (∀ x ∈ items,
      (pairs.map Prod.fst).count x = 1 ∧ (pairs.map Prod.snd).count x = 1) ∧
    (∀ p ∈ pairs, p.1 ≠ p.2) := by
  obtain ⟨hfst, hsnd, hself, hlen2⟩ := draft_some_spec h
  have hfstperm : (pairs.map Prod.fst).Perm items := by
    rw [hfst]; exact sortIds_perm items
  have hsndperm : (pairs.map Prod.snd).Perm items := hsnd.trans (sortIds_perm items)
  refine ⟨hlen2, hfstperm, hsndperm, fun x hx => ?_, hself⟩
  exact ⟨by rw [hfstperm.count_eq]; exact List.count_eq_one_of_mem hnd hx,
    by rw [hsndperm.count_eq]; exact List.count_eq_one_of_mem hnd hx⟩

/-- Witness for C1 at the concrete input [1, 2] with the random stream that
always answers 1: draft returns the 2-cycle [(1, 2), (2, 1)]. -/
theorem draft_returns_perfect_matching_witness :
    ([1, 2] : List ℕ).Nodup ∧ 2 ≤ ([1, 2] : List ℕ).length ∧
    draft (fun _ => 1) 1 [1, 2] = some [(1, 2), (2, 1)] ∧
    (([(1, 2), (2, 1)] : List (ℕ × ℕ)).length = ([1, 2] : List ℕ).length ∧
      (([(1, 2), (2, 1)] : List (ℕ × ℕ)).map Prod.fst).Perm [1, 2] ∧
      (([(1, 2), (2, 1)] : List (ℕ × ℕ)).map Prod.snd).Perm [1, 2] ∧
      (∀ x ∈ ([1, 2] : List ℕ),
        (([(1, 2), (2, 1)] : List (ℕ × ℕ)).map Prod.fst).count x = 1 ∧
        (([(1, 2), (2, 1)] : List (ℕ × ℕ)).map Prod.snd).count x = 1) ∧
      (∀ p ∈ ([(1, 2), (2, 1)] : List (ℕ × ℕ)), p.1 ≠ p.2)) :=
  ⟨by decide, by decide, rfl,
    draft_returns_perfect_matching (fun _ => 1) 1 [1, 2] [(1, 2), (2, 1)]
      (by decide) (by decide) rfl⟩

/-- C9: draft sorts the id list (in the source this happens in place on the
caller's list object) and the gifter components of any returned result,
taken in order, are exactly the input identifiers in ascending sorted order:
the gifter sequence is deterministic for a given input set and only the
receiver assignment depends on the random draws. -/
theorem draft_gifters_sorted_deterministic (oracle : ℕ → ℕ) (fuel : ℕ)
    (items : List ℕ) (pairs : List (ℕ × ℕ))
    (h : draft oracle fuel items = some pairs) :
    pairs.map Prod.fst = sortIds items ∧
    (pairs.map Prod.fst).Sorted (· ≤ ·) ∧
    (pairs.map Prod.fst).Perm items := by
  obtain ⟨hfst, -, -, -⟩ := draft_some_spec h
  exact ⟨hfst, by rw [hfst]; exact sortIds_sorted items,
    by rw [hfst]; exact sortIds_perm items⟩

/-- Witness for C9 at the concrete input [10, 3]: the returned gifters are
[3, 10], the ascending sort of the input. -/
theorem draft_gifters_sorted_deterministic_witness :
    draft (fun _ => 1) 1 [10, 3] = some [(3, 10), (10, 3)] ∧
    (([(3, 10), (10, 3)] : List (ℕ × ℕ)).map Prod.fst = sortIds [10, 3] ∧
      (([(3, 10), (10, 3)] : List (ℕ × ℕ)).map Prod.fst).Sorted (· ≤ ·) ∧
      (([(3, 10), (10, 3)] : List (ℕ × ℕ)).map Prod.fst).Perm [10, 3]) :=
  ⟨rfl, draft_gifters_sorted_deterministic (fun _ => 1) 1 [10, 3]
    [(3, 10), (10, 3)] rfl⟩

/-- C2 evidence of the code bug: utilities.draft has no retry cap and no
failure result. On the input [1, 2] with the random stream that always picks
the first remaining element, no amount of fuel makes draft return: the
re-pick while-loop runs forever during the very first round, so the model
yields none for every fuel instead of ever producing a result or a
DraftingFailed-style error. The embedding has no error value because the
source never raises; the exception classes caught by main.py's 12-attempt
loop, utilities.TooManyInvalidPicks and utilities.StuckOnLastItem, are not
defined in utilities.py at all. -/
theorem draft_unbounded_no_drafting_failed (fuel : ℕ) :
    draft stuckOracle fuel [1, 2] = none := by
  have hsort : sortIds [1, 2] = [1, 2] := by decide
  rw [draft, hsort]
  exact draftLoop_stuck fuel 0

/-- C5 counterexample: for N = 0 < 2 the claim demands a failure
(InvalidInput), but draft succeeds immediately and returns the empty pair
list; no InvalidInput condition exists anywhere in utilities.py. -/
theorem draft_invalid_input_counterexample :
    draft (fun _ => 0) 1 [] = some [] ∧ ([] : List ℕ).length < 2 :=
  ⟨rfl, by decide⟩

/-- C5 amended: utilities.draft never signals invalid input. For N = 0 it
succeeds immediately with the empty pair list, and for N = 1 it never
returns at all under any random stream: every raffle round hits the
stuck-on-last-item condition and the uncapped outer loop retries forever. -/
theorem draft_contract_amended (oracle : ℕ → ℕ) (fuel : ℕ) :
    draft oracle (fuel + 1) [] = some [] ∧ draft oracle fuel [5] = none := by
  refine ⟨rfl, ?_⟩
  have hsort : sortIds [5] = [5] := rfl
  rw [draft, hsort]
  exact draftLoop_single oracle 5 fuel 0

/-- C10: serialization round trip: rebuilding a SecretSanta from its dict
form reproduces the dict form exactly, preserving all nine stored fields
(origin_message_id, santa_message_id, participants, created_on, updated_on,
user_id, user_name, chat_id, chat_title). -/
theorem from_dict_roundtrip (now : ℕ) (s : SecretSanta) :
    SecretSanta.from_dict now s = s := by
  have hp : (if s.participants.isEmpty then [] else s.participants)
      = s.participants := by
    by_cases h : s.participants.isEmpty
    · rw [if_pos h, List.isEmpty_iff.mp h]
    · rw [if_neg h]
  cases s
  simp only [SecretSanta.from_dict, SecretSanta.init, Option.getD_some] at hp ⊢
  rw [hp]

/-- C8 counterexample: adding participant 7 to a session whose updated_on is
5 leaves updated_on at 5, not at the (later) time of the mutation; the model
of add takes no time input at all because the source add never reads the
clock (its update_time decorator is commented out). -/
theorem updated_on_not_refreshed_counterexample :
    ((SecretSanta.add ⟨10, some 20, [], 5, 5, 1, "c", -100, "g"⟩
      ⟨7, "u"⟩ none).2).updated_on = 5 ∧ (5 : ℕ) ≠ 6 :=
  ⟨rfl, by decide⟩

/-- C8 amended: none of add, remove and update_user_name refreshes
updated_on (the update_time decorator on each of them is commented out in
santa.py); updated_on changes only through the explicit updated method,
which sets it to the time it reads. -/
theorem mutations_leave_updated_on (s : SecretSanta) (u : TgUser)
    (m : Option ℕ) (uid now : ℕ) :
    (s.add u m).2.updated_on = s.updated_on ∧
    (s.remove uid).2.updated_on = s.updated_on ∧
    (s.update_user_name u).updated_on = s.updated_on ∧
    (s.updated now).updated_on = now :=
  ⟨rfl, rfl, rfl, rfl⟩

/-- C7 counterexample: user 7 is already a participant of cdDup's session,
yet a second join deeplink is answered with the ordinary joined confirmation
(the same reply a first-time joiner gets; JoinOutcome has no already-joined
reply at all, because line 444 discards the flag returned by add), rather
than being reported as already joined. -/
theorem duplicate_join_counterexample :
    santaDup.is_participant 7 = true ∧
    (on_join_deeplink none (some cdDup) [] (-100) ⟨7, "u"⟩ 11).2
      = JoinOutcome.joined false :=
  ⟨rfl, rfl⟩

/-- C7 amended: join is idempotent on the participants mapping: a second add
of the same user with the same arguments leaves the mapping unchanged in
size and content, and add returns true to flag the already-joined state; but
the deeplink handler discards this flag and answers a duplicate join with
the ordinary joined confirmation, not with an already-joined report. -/
theorem join_idempotent_amended (s : SecretSanta) (u : TgUser) (m : Option ℕ) :
    ((s.add u m).2.add u m).2.participants = (s.add u m).2.participants ∧
    ((s.add u m).2.add u m).1 = true ∧
    (∀ (cd : ChatData) (rl : List ℤ) (cid : ℤ) (mid : ℕ) (santa : SecretSanta),
      cd.muted = false → cd.active = some santa →
      santa.is_participant u.id = true →
      (on_join_deeplink none (some cd) rl cid u mid).2
        = JoinOutcome.joined (santa.user_id == u.id)) := by
  refine ⟨?_, ?_, ?_⟩
  · simp only [SecretSanta.add]
    exact setEntry_setEntry u.id _ s.participants
  · simp only [SecretSanta.add]
    exact contains_setEntry u.id _ s.participants
  · intro cd rl cid mid santa hmuted hactive hpart
    simp only [on_join_deeplink, hmuted, hactive, Bool.false_eq_true, if_false,
      Option.getD_none]
    simp

/-- Witness for the C7 amended claim at the duplicate-join scenario. -/
theorem join_idempotent_amended_witness :
    cdDup.muted = false ∧ cdDup.active = some santaDup ∧
    santaDup.is_participant 7 = true ∧
    (on_join_deeplink none (some cdDup) [] (-100) (TgUser.mk 7 "u") 11).2
      = JoinOutcome.joined (santaDup.user_id == (7 : ℕ)) :=
  ⟨rfl, rfl, rfl,
    (join_idempotent_amended santaDup (TgUser.mk 7 "u") none).2.2
      cdDup [] (-100) 11 santaDup rfl rfl rfl⟩

/-- C3 evidence of the code bug: the guard of on_cancel_command is inverted
(not binds before the comparison at line 658, so the condition reads
creator_id equals user_id and user_id not an admin). A /cancel from user 2,
who is neither the creator (user 1) nor an administrator, removes the active
session, while the same command from the non-admin creator is silently
ignored and leaves the session in place. The button handler, by contrast,
correctly rejects non-creators. -/
theorem cancel_command_guard_inverted :
    on_cancel_command (some santaC) 2 [] = (none, CancelOutcome.canceled) ∧
    on_cancel_command (some santaC) 1 [] =
      (some santaC, CancelOutcome.silentlyIgnored) ∧
    santaC.user_id = 1 ∧
    on_cancel_button santaC 2 = (some santaC, CancelButtonOutcome.onlyCreatorAlert) ∧
    on_cancel_button santaC 1 = (none, CancelButtonOutcome.canceledByCreator) := by
  refine ⟨?_, ?_, rfl, ?_, ?_⟩ <;> decide

/-- C4 counterexample: a start on a session with an odd participant count
(three) invoked by the creator is not rejected: the Matcher is invoked, the
draw succeeds and the session is removed from the chat state. -/
theorem match_button_no_count_guard_counterexample :
    santaOdd.participants.length = 3 ∧
    on_match_button (fun _ => 1) 1 (fun _ => false) santaOdd 1
      = some ⟨none, true, MatchOutcome.matched [(1, 2), (2, 3), (3, 1)]⟩ :=
  ⟨rfl, rfl⟩

/-- C4 amended: the participant-count guard exists only in the keyboard:
the start-match button is offered exactly when the count has reached
config.santa.min_participants (and no parity condition exists anywhere);
the handler itself checks only that the actor is the creator and that no
participant has blocked the bot, and otherwise always invokes the Matcher,
whatever the participant count. -/
theorem start_guard_amended :
    (∀ (minParticipants : ℕ) (chatId : ℤ) (botUsername : String) (count : ℕ),
      hasStartButton (secret_santa minParticipants chatId botUsername count)
        = decide (minParticipants ≤ count)) ∧
    (∀ (oracle : ℕ → ℕ) (fuel : ℕ) (blocked : ℕ → Bool) (santa : SecretSanta)
      (r : MatchResult),
      (santa.participants.map Prod.fst).filter blocked = [] →
      on_match_button oracle fuel blocked santa santa.user_id = some r →
      r.matcherInvoked = true) := by
  constructor
  · intro minParticipants chatId botUsername count
    have hurl : (ButtonAction.url
        ("https://t.me/" ++ botUsername ++ "?start=" ++ toString chatId)
        == ButtonAction.callback "match") = false := rfl
    by_cases h0 : count ≠ 0 <;> by_cases h1 : count ≥ minParticipants <;>
      simp [secret_santa, hasStartButton, h0, h1, hurl, ge_iff_le,
        Nat.not_le.mp]
  · intro oracle fuel blocked santa r hblocked h
    simp only [on_match_button, ne_eq, not_true_eq_false, if_false,
      hblocked] at h
    cases hd : draft oracle fuel (santa.participants.map Prod.fst) with
    | none => rw [hd] at h; cases h
    | some ms =>
        rw [hd] at h
        dsimp only at h
        by_cases he : ms.isEmpty
        · rw [if_pos he] at h
          cases h
          rfl
        · rw [if_neg he] at h
          cases h
          rfl

/-- Witness for the C4 amended claim: with min_participants = 5 and two
participants the keyboard has no start button, and the creator's start on
santaOdd (nobody blocked the bot) invokes the Matcher. -/
theorem start_guard_amended_witness :
    hasStartButton (secret_santa 5 (-100) "bot" 2) = decide ((5 : ℕ) ≤ 2) ∧
    ((santaOdd.participants.map Prod.fst).filter (fun _ => false) = [] ∧
      on_match_button (fun _ => 1) 1 (fun _ => false) santaOdd santaOdd.user_id
        = some ⟨none, true, MatchOutcome.matched [(1, 2), (2, 3), (3, 1)]⟩ ∧
      (MatchResult.mk none true
        (MatchOutcome.matched [(1, 2), (2, 3), (3, 1)])).matcherInvoked = true) :=
  ⟨start_guard_amended.1 5 (-100) "bot" 2,
    rfl, rfl,
    start_guard_amended.2 (fun _ => 1) 1 (fun _ => false) santaOdd
      (MatchResult.mk none true (MatchOutcome.matched [(1, 2), (2, 3), (3, 1)]))
      rfl rfl⟩

/-- C6 counterexample: a sweeper pass over a muted chat removes the over-age
session without emitting any expiry notice (timeout 1 day, created at 0,
now 200000 s), contradicting the claim that removal always comes with a
notice. -/
theorem sweep_muted_counterexample :
    sweepChat 1 200000 ⟨some santaEpoch, true⟩ = (⟨none, true⟩, false) ∧
    (1 * 86400 : ℤ) < (200000 : ℤ) - (santaEpoch.created_on : ℤ) := by
  refine ⟨?_, by decide⟩
  decide

/-- C6 amended: a sweeper pass removes a session exactly when its age
exceeds the configured timeout, and emits the expiry notice exactly when it
does so in a chat not marked muted (a muted chat's over-age session is
removed silently); sessions at or below the timeout are left completely
unchanged, and after a pass no over-age session remains in the store. -/
theorem sweep_amended (timeoutDays now : ℕ) (cd : ChatData)
    (santa : SecretSanta) (h : cd.active = some santa) :
    ((sweepChat timeoutDays now cd).1.active = none
      ↔ (timeoutDays : ℤ) * 86400 < (now : ℤ) - (santa.created_on : ℤ)) ∧
    ((now : ℤ) - (santa.created_on : ℤ) ≤ (timeoutDays : ℤ) * 86400
      → sweepChat timeoutDays now cd = (cd, false)) ∧
    ((sweepChat timeoutDays now cd).2 = true
      ↔ ((timeoutDays : ℤ) * 86400 < (now : ℤ) - (santa.created_on : ℤ)
          ∧ cd.muted = false)) ∧
    (∀ (chats : List ChatData) (x : ChatData × Bool),
      x ∈ close_old_secret_santas timeoutDays now chats →
      ∀ s2 : SecretSanta, x.1.active = some s2 →
      (now : ℤ) - (s2.created_on : ℤ) ≤ (timeoutDays : ℤ) * 86400) := by
  have hs : sweepChat timeoutDays now cd =
      if (now : ℤ) - (santa.created_on : ℤ) ≤ (timeoutDays : ℤ) * 86400 then
        (cd, false)
      else ({ cd with active := none }, !cd.muted) := by
    unfold sweepChat
    rw [h]
  refine ⟨?_, ?_, ?_, ?_⟩
  · by_cases hle : (now : ℤ) - (santa.created_on : ℤ) ≤ (timeoutDays : ℤ) * 86400
    · rw [hs, if_pos hle]
      simp [h]
      omega
    · rw [hs, if_neg hle]
      simp
      omega
  · intro hle
    rw [hs, if_pos hle]
  · by_cases hle : (now : ℤ) - (santa.created_on : ℤ) ≤ (timeoutDays : ℤ) * 86400
    · rw [hs, if_pos hle]
      constructor
      · intro hfalse
        cases hfalse
      · intro hc
        exact absurd hc.1 (by omega)
    · rw [hs, if_neg hle]
      constructor
      · intro hb
        refine ⟨by omega, ?_⟩
        simpa using hb
      · intro hc
        simp [hc.2]
  · intro chats x hx s2 hs2
    obtain ⟨cd2, -, hcd2⟩ := List.mem_map.1 hx
    subst hcd2
    unfold sweepChat at hs2
    cases hact : cd2.active with
    | none =>
        rw [hact] at hs2
        dsimp only at hs2
        rw [hact] at hs2
        cases hs2
    | some s3 =>
        rw [hact] at hs2
        dsimp only at hs2
        by_cases hle : (now : ℤ) - (s3.created_on : ℤ) ≤ (timeoutDays : ℤ) * 86400
        · rw [if_pos hle] at hs2
          dsimp only at hs2
          rw [hact] at hs2
          injection hs2 with h32
          exact h32 ▸ hle
        · rw [if_neg hle] at hs2
          dsimp only at hs2
          cases hs2

/-- Witness for the C6 amended claim: a one-day timeout, a session created
at time 0 and a tick at time 100 (age below the timeout) leave the chat
untouched and emit nothing. -/
theorem sweep_amended_witness :
    (ChatData.mk (some santaEpoch) false).active = some santaEpoch ∧
    sweepChat 1 100 (ChatData.mk (some santaEpoch) false)
      = (ChatData.mk (some santaEpoch) false, false) :=
  ⟨rfl, (sweep_amended 1 100 (ChatData.mk (some santaEpoch) false) santaEpoch
    rfl).2.1 (by decide)⟩

end SantaBot

